import Mathlib

/-!
Shallow embedding of `src/server.py` (puchcraft_mcp): the MCP tool
`get_server_status`, which checks a Minecraft server via the mcsrvstat.us
HTTP API and, when the server is not online, asks the Groq completion API
for alternative suggestions.

External I/O (the two `requests` calls) is modelled by an `Env` oracle
giving the outcome of each call; the tool body is a pure function from
the oracle and the input to the returned `Content` plus the ordered list
of external requests it issued.
-/

/-- URL prefix used by `requests.get(f"https://api.mcsrvstat.us/2/{server_ip}")`. -/
def MCSRVSTAT_BASE : String := "https://api.mcsrvstat.us/2/"

/-- Constant `GROQ_API_URL` from server.py. -/
def GROQ_API_URL : String := "https://api.groq.com/openai/v1/chat/completions"

/-- Constant `GROQ_MODEL` from server.py. -/
def GROQ_MODEL : String := "llama3-8b-8192"

/-- Input schema of the tool: pydantic model `ServerStatusInput` with the
single field `server_ip : str`. -/
structure ServerStatusInput where
  server_ip : String
deriving DecidableEq

/-- JSON values as decoded by `response.json()` (Python `json` module:
dicts, lists, strings, ints, bools, None; floats are not needed here). -/
inductive Json where
  | null : Json
  | bool (b : Bool) : Json
  | num (n : Int) : Json
  | str (s : String) : Json
  | arr (elems : List Json) : Json
  | obj (fields : List (String × Json)) : Json

/-- First-match lookup in a JSON object's field list (Python dict keys are
unique, so first match is the dict lookup). -/
def Json.lookupField : List (String × Json) → String → Option Json
  | [], _ => none
  | (k, v) :: rest, key => if k = key then some v else Json.lookupField rest key

/-- Python truthiness of a decoded JSON value (`if data.get("online"):`). -/
def Json.truthy : Json → Bool
  | .null => false
  | .bool b => b
  | .num n => n != 0
  | .str s => s != ""
  | .arr elems => !elems.isEmpty
  | .obj fields => !fields.isEmpty

/-- Python truthiness of `dict.get(key)` (absent key gives `None`, falsy). -/
def pyTruthy : Option Json → Bool
  | none => false
  | some j => j.truthy

/-- Exceptions that the tool body can raise: `requests.RequestException`
(first handler) versus everything else (second handler). -/
inductive PyExc where
  | requestExc (msg : String) : PyExc
  | otherExc (msg : String) : PyExc
deriving DecidableEq

/-- `j.get(key)` — raises `AttributeError` when `j` is not a dict. -/
def pyGetOpt (j : Json) (key : String) : Except PyExc (Option Json) :=
  match j with
  | .obj fields => .ok (Json.lookupField fields key)
  | _ => .error (.otherExc "AttributeError: object has no attribute get")

/-- `j.get(key, default)` — raises `AttributeError` when `j` is not a dict. -/
def pyGetD (j : Json) (key : String) (d : Json) : Except PyExc Json :=
  match j with
  | .obj fields => .ok ((Json.lookupField fields key).getD d)
  | _ => .error (.otherExc "AttributeError: object has no attribute get")

/-- `j[0]` on a decoded JSON value, as Python indexing behaves per type. -/
def pyIndexZero (j : Json) : Except PyExc Json :=
  match j with
  | .arr [] => .error (.otherExc "IndexError: list index out of range")
  | .arr (x :: _) => .ok x
  | .str s =>
    match s.data with
    | [] => .error (.otherExc "IndexError: string index out of range")
    | c :: _ => .ok (.str (String.singleton c))
  | .obj _ => .error (.otherExc "KeyError: 0")
  | _ => .error (.otherExc "TypeError: object is not subscriptable")

/-- `j.strip()` — only defined on strings, `AttributeError` otherwise. -/
def pyStrip (j : Json) : Except PyExc String :=
  match j with
  | .str s => .ok s.trim
  | _ => .error (.otherExc "AttributeError: object has no attribute strip")

/-- Python `repr` of a decoded JSON value (used for values nested inside
containers when formatted into an f-string). -/
def pyRepr : Json → String
  | .null => "None"
  | .bool b => cond b "True" "False"
  | .num n => toString n
  | .str s => "\x27" ++ s ++ "\x27"
  | .arr elems =>
      "[" ++ String.intercalate ", " (elems.attach.map (fun x => pyRepr x.1)) ++ "]"
  | .obj fields =>
      "\x7b" ++
        String.intercalate ", "
          (fields.attach.map (fun x => "\x27" ++ x.1.1 ++ "\x27: " ++ pyRepr x.1.2)) ++
      "\x7d"
decreasing_by
  all_goals
    first
    | (have h := List.sizeOf_lt_of_mem x.2
       simp only [Json.arr.sizeOf_spec, Json.obj.sizeOf_spec]
       omega)
    | (have h := List.sizeOf_lt_of_mem x.2
       have h2 : sizeOf x.1.2 < sizeOf x.1 := by
         obtain ⟨⟨k, v⟩, hm⟩ := x
         show sizeOf v < sizeOf (k, v)
         simp only [Prod.mk.sizeOf_spec]
         omega
       simp only [Json.arr.sizeOf_spec, Json.obj.sizeOf_spec]
       omega)

/-- Python `str` of a decoded JSON value (f-string formatting): identical
to `repr` except on strings, which are rendered without quotes. -/
def pyStr (j : Json) : String :=
  match j with
  | .str s => s
  | .null => "None"
  | .bool b => cond b "True" "False"
  | .num n => toString n
  | .arr elems => pyRepr (.arr elems)
  | .obj fields => pyRepr (.obj fields)

/-- Each element of the joined iterable must be a `str`, else `TypeError`. -/
def strListOf : List Json → Except PyExc (List String)
  | [] => .ok []
  | .str s :: rest =>
      match strListOf rest with
      | .ok ss => .ok (s :: ss)
      | .error e => .error e
  | _ :: _ => .error (.otherExc "TypeError: sequence item: expected str instance")

/-- Python `sep.join(j)`: joins a list of strings, the characters of a
string, or the keys of a dict; `TypeError` on non-iterables. -/
def pyJoin (sep : String) (j : Json) : Except PyExc String :=
  match j with
  | .arr elems =>
      match strListOf elems with
      | .ok ss => .ok (String.intercalate sep ss)
      | .error e => .error e
  | .str s => .ok (String.intercalate sep (s.data.map String.singleton))
  | .obj fields => .ok (String.intercalate sep (fields.map Prod.fst))
  | _ => .error (.otherExc "TypeError: can only join an iterable")

/-- One `{"type": "text", "text": ...}` block of the returned content. -/
structure TextBlock where
  text : String
deriving DecidableEq

/-- The `Content` value the tool returns: text blocks plus metadata. -/
structure Content where
  content : List TextBlock
  metadata : List (String × Json)

/-- An HTTP response as seen through the `requests` API: `status_code`,
`text`, and the result of `.json()` (`none` when the body is not valid
JSON, in which case `.json()` raises). -/
structure HttpResponse where
  status_code : Nat
  body : String
  jsonBody : Option Json

/-- Outcome of one `requests.get`/`requests.post` call: either the call
raised a `requests.RequestException`, or it produced a response. -/
inductive FetchResult where
  | exc (msg : String) : FetchResult
  | resp (r : HttpResponse) : FetchResult

/-- Oracle for one invocation: the outcome of the mcsrvstat.us GET, the
outcome of the Groq POST (if issued), and the `GROQ_API_KEY` environment
value (`os.getenv` gives `None` when unset). -/
structure Env where
  statusFetch : FetchResult
  groqFetch : FetchResult
  groqApiKey : Option String

/-- A record of one external HTTP request issued by the tool, with the
timeout passed at the call site (`none`: no timeout argument was given). -/
inductive ExtRequest where
  | statusGet (url : String) (timeout : Option Nat) : ExtRequest
  | groqPost (url authHeader model prompt : String) (timeout : Option Nat) : ExtRequest
deriving DecidableEq

/-- The timeout with which a recorded request was issued. -/
def ExtRequest.timeout? : ExtRequest → Option Nat
  | .statusGet _ t => t
  | .groqPost _ _ _ _ t => t

/-- Whether a recorded request is the Groq completion POST. -/
def ExtRequest.isGroqPost : ExtRequest → Bool
  | .groqPost _ _ _ _ _ => true
  | _ => false

/-- `f"Bearer {GROQ_API_KEY}"`: Python renders `None` as the text None. -/
def optKeyStr : Option String → String
  | some k => k
  | none => "None"

/-- The prompt built for Groq (triple-quoted f-string, then `.strip()`). -/
def groqPrompt (ip : String) : String :=
  ("\nYou are PuchCraft AI, an expert on popular public Minecraft servers.\nA server is offline.\n\nHostname: " ++ ip ++ "\nPlease suggest 3 similar, active and popular Minecraft servers (Name — IP — 1-line reason each).\nFormat as:\n1. Name — IP — Reason\n2. ...\n3. ...\n        ").trim

/-- The status GET request as issued on line 43 of server.py: URL only,
no timeout argument. -/
def statusRequestOf (ip : String) : ExtRequest :=
  .statusGet (MCSRVSTAT_BASE ++ ip) none

/-- The Groq POST request as issued on lines 73-83 of server.py: URL,
bearer header from the configured key, model, prompt, no timeout. -/
def groqRequestOf (env : Env) (ip : String) : ExtRequest :=
  .groqPost GROQ_API_URL ("Bearer " ++ optKeyStr env.groqApiKey) GROQ_MODEL
    (groqPrompt ip) none

/-- Lines 47-58: the online branch. `players = data.get("players", {})`,
`motd_lines = data.get("motd", {}).get("clean", ["N/A"])`, then the three
text blocks (f-strings evaluate `players.get(...)` and the join). -/
def onlineContent (ip : String) (data : Json) : Except PyExc Content :=
  match pyGetD data "players" (.obj []) with
  | .error e => .error e
  | .ok players =>
    match pyGetD data "motd" (.obj []) with
    | .error e => .error e
    | .ok motd =>
      match pyGetD motd "clean" (.arr [.str "N/A"]) with
      | .error e => .error e
      | .ok motdLines =>
        match pyGetD players "online" (.num 0) with
        | .error e => .error e
        | .ok pOnline =>
          match pyGetD players "max" (.num 0) with
          | .error e => .error e
          | .ok pMax =>
            match pyJoin " " motdLines with
            | .error e => .error e
            | .ok motdText =>
              .ok { content :=
                      [⟨"Server " ++ ip ++ " is ONLINE."⟩,
                       ⟨"Players: " ++ pyStr pOnline ++ "/" ++ pyStr pMax⟩,
                       ⟨"MOTD: " ++ motdText⟩],
                    metadata := [("raw", data)] }

/-- Line 98: `groq_json.get("choices", [{}])[0].get("message", {})
.get("content", "No suggestions returned.").strip()`. -/
def extractSuggestions (gj : Json) : Except PyExc String :=
  match pyGetD gj "choices" (.arr [.obj []]) with
  | .error e => .error e
  | .ok choices =>
    match pyIndexZero choices with
    | .error e => .error e
    | .ok c0 =>
      match pyGetD c0 "message" (.obj []) with
      | .error e => .error e
      | .ok message =>
        match pyGetD message "content" (.str "No suggestions returned.") with
        | .error e => .error e
        | .ok contentVal => pyStrip contentVal

/-- Lines 85-107: handling of the Groq HTTP response. `groq_resp.ok` is
`status_code < 400`; `.json()` raises on a malformed body. -/
def handleGroqResponse (ip : String) (data : Json) (g : HttpResponse) :
    Except PyExc Content :=
  if 400 ≤ g.status_code then
    .ok { content :=
            [⟨"Server " ++ ip ++ " is OFFLINE."⟩,
             ⟨"Unable to fetch alternatives from Groq (status " ++
               toString g.status_code ++ ")."⟩],
          metadata := [("mcsrv", data)] }
  else
    match g.jsonBody with
    | none => .error (.requestExc "Invalid JSON in Groq response body")
    | some gj =>
      match extractSuggestions gj with
      | .error e => .error e
      | .ok sug =>
        .ok { content :=
                [⟨"Server " ++ ip ++ " is OFFLINE."⟩,
                 ⟨"Suggested alternatives:"⟩,
                 ⟨sug⟩],
              metadata := [("mcsrv", data), ("groq", gj)] }

/-- The body of the `try` block (lines 41-107), returning the normal
result or the exception raised, together with the ordered list of
external requests issued. `raise_for_status` raises `HTTPError` (a
`RequestException`) when `400 ≤ status_code`; `.json()` raises
`JSONDecodeError` (a `RequestException` in requests >= 2.27) on a
malformed body. -/
def runBody (env : Env) (ip : String) : Except PyExc Content × List ExtRequest :=
  let req1 := statusRequestOf ip
  match env.statusFetch with
  | .exc m => (.error (.requestExc m), [req1])
  | .resp res =>
    if 400 ≤ res.status_code then
      (.error (.requestExc ("HTTPError for status " ++ toString res.status_code)),
       [req1])
    else
      match res.jsonBody with
      | none => (.error (.requestExc "Invalid JSON in status response body"), [req1])
      | some data =>
        match pyGetOpt data "online" with
        | .error e => (.error e, [req1])
        | .ok onlineVal =>
          if pyTruthy onlineVal then
            (onlineContent ip data, [req1])
          else
            let req2 := groqRequestOf env ip
            match env.groqFetch with
            | .exc m => (.error (.requestExc m), [req1, req2])
            | .resp g => (handleGroqResponse ip data g, [req1, req2])

/-- Lines 109-114: content returned by `except requests.RequestException`. -/
def networkErrorReport (ip m : String) : Content :=
  { content := [⟨"Network error checking " ++ ip ++ ": " ++ m⟩],
    metadata := [("error", .str m)] }

/-- Lines 115-120: content returned by the catch-all `except Exception`. -/
def unexpectedErrorReport (ip m : String) : Content :=
  { content := [⟨"An unexpected error occurred while checking " ++ ip ++ "."⟩],
    metadata := [("error", .str m)] }

/-- The whole tool `get_server_status`: the try body wrapped in the two
exception handlers. Total: every exception of the body becomes content. -/
def get_server_status (env : Env) (params : ServerStatusInput) :
    Content × List ExtRequest :=
  match runBody env params.server_ip with
  | (.ok c, tr) => (c, tr)
  | (.error (.requestExc m), tr) => (networkErrorReport params.server_ip m, tr)
  | (.error (.otherExc m), tr) => (unexpectedErrorReport params.server_ip m, tr)

/-- The status check succeeded and `data.get("online")` is truthy
(the condition of line 47 taken). -/
def statusOnline (env : Env) : Bool :=
  match env.statusFetch with
  | .exc _ => false
  | .resp r =>
    if 400 ≤ r.status_code then false
    else
      match r.jsonBody with
      | none => false
      | some data =>
        match pyGetOpt data "online" with
        | .error _ => false
        | .ok v => pyTruthy v

/-- The status check succeeded and `data.get("online")` is falsy
(the offline path of line 60 reached). -/
def statusOffline (env : Env) : Bool :=
  match env.statusFetch with
  | .exc _ => false
  | .resp r =>
    if 400 ≤ r.status_code then false
    else
      match r.jsonBody with
      | none => false
      | some data =>
        match pyGetOpt data "online" with
        | .error _ => false
        | .ok v => !pyTruthy v

/-- Modelled from the spec: the repository has no Binary Codec source
(src holds only server.py); `encodeVarInt` is taken from spec section 4.1:
7 data bits per byte, little-endian group order, continuation bit (0x80)
set on all but the final byte. This is the non-negative core. -/
def encodeVarIntNat (v : Nat) : List Nat :=
  if h : v < 128 then [v]
  else (v % 128 + 128) :: encodeVarIntNat (v / 128)
decreasing_by
  exact Nat.div_lt_self (by omega) (by omega)

/-- Modelled from the spec: `encodeVarInt(value: int32) -> bytes`, failing
(`EncodingError`, here `none`) on negative input. -/
def encodeVarInt (v : Int) : Option (List Nat) :=
  if v < 0 then none else some (encodeVarIntNat v.toNat)

/-- Modelled from the spec: `decodeVarInt(stream)` reads
continuation-terminated groups and fails (`MalformedData`, here `none`)
if more than 5 bytes would be consumed without termination, or on a short
read. The fuel argument counts the bytes still allowed. -/
def decodeVarIntAux : List Nat → Nat → Option (Nat × Nat)
  | _, 0 => none
  | [], _ + 1 => none
  | b :: rest, fuel + 1 =>
    if b < 128 then some (b, 1)
    else
      match decodeVarIntAux rest fuel with
      | none => none
      | some (v, n) => some ((b - 128) + 128 * v, n + 1)

/-- Modelled from the spec: `decodeVarInt(stream) -> (int32, bytesConsumed)`
with the 5-byte corruption guard. -/
def decodeVarInt (s : List Nat) : Option (Int × Nat) :=
  match decodeVarIntAux s 5 with
  | none => none
  | some (v, n) => some ((v : Int), n)

theorem decodeVarIntAux_encode (fuel : Nat) :
    ∀ v : Nat, v < 128 ^ (fuel + 1) →
      decodeVarIntAux (encodeVarIntNat v) (fuel + 1) =
        some (v, (encodeVarIntNat v).length) := by
  induction fuel with
  | zero =>
    intro v hv
    have h : v < 128 := by simpa using hv
    unfold encodeVarIntNat
    rw [dif_pos h]
    simp [decodeVarIntAux, h]
  | succ k ih =>
    intro v hv
    by_cases h : v < 128
    · unfold encodeVarIntNat
      rw [dif_pos h]
      simp [decodeVarIntAux, h]
    · unfold encodeVarIntNat
      rw [dif_neg h]
      have hb : ¬ (v % 128 + 128 < 128) := by omega
      have hdiv : v / 128 < 128 ^ (k + 1) := by
        rw [Nat.div_lt_iff_lt_mul (by omega : 0 < 128)]
        calc v < 128 ^ (k + 2) := hv
          _ = 128 ^ (k + 1) * 128 := by ring
      simp only [decodeVarIntAux, if_neg hb, ih (v / 128) hdiv, List.length_cons]
      have hval : v % 128 + 128 - 128 + 128 * (v / 128) = v := by
        have := Nat.mod_add_div v 128
        omega
      rw [hval]

theorem get_server_status_trace (env : Env) (params : ServerStatusInput) :
    (get_server_status env params).2 = (runBody env params.server_ip).2 := by
  unfold get_server_status
  rcases h : runBody env params.server_ip with ⟨res, tr⟩
  rcases res with e | c
  · rcases e with m | m <;> rfl
  · rfl

theorem runBody_online_eq (env : Env) (r : HttpResponse) (data : Json)
    (v : Option Json) (ip : String)
    (h1 : env.statusFetch = .resp r) (h2 : r.status_code < 400)
    (h3 : r.jsonBody = some data) (h4 : pyGetOpt data "online" = .ok v)
    (h5 : pyTruthy v = true) :
    runBody env ip = (onlineContent ip data, [statusRequestOf ip]) := by
  have h2' : ¬ 400 ≤ r.status_code := by omega
  unfold runBody
  simp only [h1, if_neg h2', h3, h4, h5, if_pos]

theorem runBody_offline_exc_eq (env : Env) (r : HttpResponse) (data : Json)
    (v : Option Json) (ip m : String)
    (h1 : env.statusFetch = .resp r) (h2 : r.status_code < 400)
    (h3 : r.jsonBody = some data) (h4 : pyGetOpt data "online" = .ok v)
    (h5 : pyTruthy v = false) (h6 : env.groqFetch = .exc m) :
    runBody env ip =
      (.error (.requestExc m), [statusRequestOf ip, groqRequestOf env ip]) := by
  have h2' : ¬ 400 ≤ r.status_code := by omega
  unfold runBody
  simp only [h1, if_neg h2', h3, h4, h5, h6, Bool.false_eq_true, if_false]

theorem runBody_offline_resp_eq (env : Env) (r g : HttpResponse) (data : Json)
    (v : Option Json) (ip : String)
    (h1 : env.statusFetch = .resp r) (h2 : r.status_code < 400)
    (h3 : r.jsonBody = some data) (h4 : pyGetOpt data "online" = .ok v)
    (h5 : pyTruthy v = false) (h6 : env.groqFetch = .resp g) :
    runBody env ip =
      (handleGroqResponse ip data g, [statusRequestOf ip, groqRequestOf env ip]) := by
  have h2' : ¬ 400 ≤ r.status_code := by omega
  unfold runBody
  simp only [h1, if_neg h2', h3, h4, h5, h6, Bool.false_eq_true, if_false]

theorem onlineContent_ok_shape (ip : String) (data : Json) (c : Content)
    (h : onlineContent ip data = .ok c) :
    ∃ a b m, c.content =
      [⟨"Server " ++ ip ++ " is ONLINE."⟩,
       ⟨"Players: " ++ a ++ "/" ++ b⟩,
       ⟨"MOTD: " ++ m⟩] ∧ c.metadata = [("raw", data)] := by
  unfold onlineContent at h
  repeat' split at h
  all_goals try (exact Except.noConfusion h)
  simp only [Except.ok.injEq] at h
  subst h
  exact ⟨_, _, _, rfl, rfl⟩

theorem handleGroqResponse_http_error (ip : String) (data : Json)
    (g : HttpResponse) (h : 400 ≤ g.status_code) :
    handleGroqResponse ip data g =
      .ok { content :=
              [⟨"Server " ++ ip ++ " is OFFLINE."⟩,
               ⟨"Unable to fetch alternatives from Groq (status " ++
                 toString g.status_code ++ ")."⟩],
            metadata := [("mcsrv", data)] } := by
  unfold handleGroqResponse
  rw [if_pos h]

theorem handleGroqResponse_success (ip : String) (data gj : Json)
    (g : HttpResponse) (s : String) (h : g.status_code < 400)
    (hj : g.jsonBody = some gj) (hs : extractSuggestions gj = .ok s) :
    handleGroqResponse ip data g =
      .ok { content :=
              [⟨"Server " ++ ip ++ " is OFFLINE."⟩,
               ⟨"Suggested alternatives:"⟩,
               ⟨s⟩],
            metadata := [("mcsrv", data), ("groq", gj)] } := by
  have h' : ¬ 400 ≤ g.status_code := by omega
  unfold handleGroqResponse
  simp only [if_neg h', hj, hs]

theorem handleGroqResponse_ok_content (ip : String) (data : Json)
    (g : HttpResponse) (c : Content) (h : handleGroqResponse ip data g = .ok c) :
    c.content ≠ [] := by
  unfold handleGroqResponse at h
  repeat' split at h
  all_goals try (exact Except.noConfusion h)
  all_goals (simp only [Except.ok.injEq] at h; subst h; simp)

theorem runBody_ok_content (env : Env) (ip : String) (c : Content)
    (tr : List ExtRequest) (h : runBody env ip = (.ok c, tr)) :
    c.content ≠ [] := by
  unfold runBody at h
  repeat' split at h
  all_goals rw [Prod.mk.injEq] at h
  all_goals
    first
    | exact Except.noConfusion h.1
    | exact handleGroqResponse_ok_content _ _ _ c h.1
    | (obtain ⟨a, b, m, hc, _⟩ := onlineContent_ok_shape _ _ c h.1
       simp [hc])

theorem runBody_trace_eq (env : Env) (ip : String) :
    (runBody env ip).2 =
      if statusOffline env then [statusRequestOf ip, groqRequestOf env ip]
      else [statusRequestOf ip] := by
  rcases env with ⟨sf, gf, key⟩
  rcases sf with m | r
  · rfl
  · rcases r with ⟨code, body, jb⟩
    by_cases h4 : 400 ≤ code
    · simp [runBody, statusOffline, h4]
    · rcases jb with _ | data
      · simp [runBody, statusOffline, h4]
      · cases data <;> try simp [runBody, statusOffline, pyGetOpt, h4]
        rename_i fields
        by_cases ht : pyTruthy (Json.lookupField fields "online")
        · simp [runBody, statusOffline, pyGetOpt, h4, ht]
        · rcases gf with m2 | g <;>
            simp [runBody, statusOffline, pyGetOpt, h4, ht, groqRequestOf]

theorem statusOnline_not_offline (env : Env) (h : statusOnline env = true) :
    statusOffline env = false := by
  unfold statusOnline at h
  unfold statusOffline
  repeat' split at h
  all_goals simp_all

theorem report_content_ne_nil (env : Env) (params : ServerStatusInput) :
    ((get_server_status env params).1).content ≠ [] := by
  unfold get_server_status
  rcases h : runBody env params.server_ip with ⟨res, tr⟩
  rcases res with e | c
  · rcases e with m | m <;> simp [networkErrorReport, unexpectedErrorReport]
  · exact runBody_ok_content env params.server_ip c tr h

/-- Does any text block of the report contain `needle` as a substring? -/
def startsList : List Char → List Char → Bool
  | _, [] => true
  | [], _ :: _ => false
  | a :: as, b :: bs => a = b && startsList as bs

/-- Substring test on character lists (naive scan). -/
def hasSubList : List Char → List Char → Bool
  | [], needle => startsList [] needle
  | a :: t, needle => startsList (a :: t) needle || hasSubList t needle

/-- Does some text block of the content mention `needle`? -/
def mentionsText (c : Content) (needle : String) : Bool :=
  c.content.any (fun b => hasSubList b.text.data needle.data)

/-- Online status response for `mc.example.org`: players 5/20, a two-line
clean motd; groq oracle irrelevant on this branch. -/
def envON : Env :=
  { statusFetch := .resp
      { status_code := 200, body := "",
        jsonBody := some (.obj
          [("online", .bool true),
           ("players", .obj [("online", .num 5), ("max", .num 20)]),
           ("motd", .obj [("clean", .arr [.str "Hello", .str "world"])])]) },
    groqFetch := .exc "unused",
    groqApiKey := some "gsk-test" }

/-- Offline status response; the Groq POST raises (unreachable host). -/
def envOFF : Env :=
  { statusFetch := .resp
      { status_code := 200, body := "",
        jsonBody := some (.obj [("online", .bool false)]) },
    groqFetch := .exc "Connection refused",
    groqApiKey := some "gsk-test" }

/-- Offline status response; the Groq response body is not valid JSON. -/
def envGB : Env :=
  { statusFetch := .resp
      { status_code := 200, body := "",
        jsonBody := some (.obj [("online", .bool false)]) },
    groqFetch := .resp { status_code := 200, body := "not json", jsonBody := none },
    groqApiKey := some "gsk-test" }

/-- Offline status response; Groq answers with a well-formed completion. -/
def envGOK : Env :=
  { statusFetch := .resp
      { status_code := 200, body := "",
        jsonBody := some (.obj [("online", .bool false)]) },
    groqFetch := .resp
      { status_code := 200, body := "",
        jsonBody := some (.obj
          [("choices",
            .arr [.obj
              [("message",
                .obj [("content",
                  .str "1. Hypixel — mc.hypixel.net — biggest network\n")])]])]) },
    groqApiKey := some "gsk-test" }

/-- Offline status response; Groq answers with HTTP 500. -/
def envGERR : Env :=
  { statusFetch := .resp
      { status_code := 200, body := "",
        jsonBody := some (.obj [("online", .bool false)]) },
    groqFetch := .resp { status_code := 500, body := "err", jsonBody := none },
    groqApiKey := some "gsk-test" }

/-- Status response with `online` true but no `players`, `motd` or
`version` fields at all. -/
def envDEF : Env :=
  { statusFetch := .resp
      { status_code := 200, body := "",
        jsonBody := some (.obj [("online", .bool true)]) },
    groqFetch := .exc "unused",
    groqApiKey := some "gsk-test" }

/-- The status GET itself raises a network error. -/
def envERR : Env :=
  { statusFetch := .exc "DNS failure",
    groqFetch := .exc "unused",
    groqApiKey := none }

/-- C1: for every oracle outcome and every input address, `get_server_status`
returns a well-formed (non-empty) report; every downstream failure — status
network error, bad HTTP status, provider failure, unexpected exception —
is converted into content of the returned report, never raised to the
caller (malformed input is rejected by the pydantic layer before the tool
body and is the only permitted exception). -/
theorem get_server_status_always_returns_report (env : Env)
    (params : ServerStatusInput) :
    ((get_server_status env params).1).content ≠ [] :=
  report_content_ne_nil env params

/-- C2 counterexample: with the status result Offline and the Groq call
raising a network exception, the report is the bare network-error message:
it contains neither the offline summary nor any suggestion block, so the
claim's unconditional "returns a report whose suggestions field is that
provider's block, and whose offline summary states the failure reason and
suggestion text" is false at this input. -/
theorem offline_summary_counterexample :
    statusOffline envOFF = true ∧
    ((get_server_status envOFF ⟨"play.example.com"⟩).1).content.map TextBlock.text =
      ["Network error checking play.example.com: Connection refused"] ∧
    ¬ ((⟨"Server play.example.com is OFFLINE."⟩ : TextBlock) ∈
        ((get_server_status envOFF ⟨"play.example.com"⟩).1).content) := by
  refine ⟨rfl, rfl, ?_⟩
  decide

/-- C2 amended: whenever the status query result is Offline, the Groq
provider is called exactly once (the request trace is exactly the status
GET followed by the Groq POST); and when the Groq call returns a
well-formed successful response, the report is the offline statement, the
"Suggested alternatives:" header, and the provider's suggestion text.
When the Groq call itself raises, the report is instead the network-error
message (see the counterexample). -/
theorem offline_calls_provider_once (env : Env) (params : ServerStatusInput)
    (r : HttpResponse) (data : Json) (v : Option Json)
    (h1 : env.statusFetch = .resp r) (h2 : r.status_code < 400)
    (h3 : r.jsonBody = some data) (h4 : pyGetOpt data "online" = .ok v)
    (h5 : pyTruthy v = false) :
    (get_server_status env params).2 =
      [statusRequestOf params.server_ip, groqRequestOf env params.server_ip] ∧
    (∀ g gj s, env.groqFetch = .resp g → g.status_code < 400 →
      g.jsonBody = some gj → extractSuggestions gj = .ok s →
      ((get_server_status env params).1).content.map TextBlock.text =
        ["Server " ++ params.server_ip ++ " is OFFLINE.",
         "Suggested alternatives:", s]) := by
  constructor
  · rw [get_server_status_trace]
    rcases hg : env.groqFetch with m | g
    · rw [runBody_offline_exc_eq env r data v params.server_ip m h1 h2 h3 h4 h5 hg]
    · rw [runBody_offline_resp_eq env r g data v params.server_ip h1 h2 h3 h4 h5 hg]
  · intro g gj s hg hgok hgj hsug
    have hrb := runBody_offline_resp_eq env r g data v params.server_ip h1 h2 h3 h4 h5 hg
    have hh := handleGroqResponse_success params.server_ip data gj g s hgok hgj hsug
    unfold get_server_status
    rw [hrb, hh]
    rfl

theorem offline_calls_provider_once_witness :
    (get_server_status envGOK ⟨"play.example.com"⟩).2 =
      [statusRequestOf "play.example.com", groqRequestOf envGOK "play.example.com"] :=
  (offline_calls_provider_once envGOK ⟨"play.example.com"⟩ _ _ _ rfl (by decide)
    rfl rfl rfl).1

/-- C3 counterexample: on a well-formed Online status response the report
contains the address, player counts and motd but no latency figure at all
(no text block mentions latency or any ms value), so the claim's "online
summary containing the address, player counts, motd, and latency" is
false at this input. -/
theorem online_summary_latency_counterexample :
    statusOnline envON = true ∧
    ((get_server_status envON ⟨"mc.example.org"⟩).1).content.map TextBlock.text =
      ["Server mc.example.org is ONLINE.", "Players: 5/20", "MOTD: Hello world"] ∧
    mentionsText (get_server_status envON ⟨"mc.example.org"⟩).1 "latency" = false ∧
    mentionsText (get_server_status envON ⟨"mc.example.org"⟩).1 "ms" = false :=
  ⟨rfl, by decide, by decide, by decide⟩

/-- C3 amended: on every Online status result the tool makes no discovery
call (the request trace is exactly the one status GET, so suggestions are
absent) and returns the three-block online summary: address line, player
counts line, and motd line — with no latency (the code never measures
it). -/
theorem online_report_no_groq (env : Env) (params : ServerStatusInput)
    (r : HttpResponse) (data : Json) (v : Option Json) (c : Content)
    (h1 : env.statusFetch = .resp r) (h2 : r.status_code < 400)
    (h3 : r.jsonBody = some data) (h4 : pyGetOpt data "online" = .ok v)
    (h5 : pyTruthy v = true) (h6 : onlineContent params.server_ip data = .ok c) :
    get_server_status env params = (c, [statusRequestOf params.server_ip]) ∧
    ∃ a b m, c.content =
      [⟨"Server " ++ params.server_ip ++ " is ONLINE."⟩,
       ⟨"Players: " ++ a ++ "/" ++ b⟩,
       ⟨"MOTD: " ++ m⟩] := by
  have hrb := runBody_online_eq env r data v params.server_ip h1 h2 h3 h4 h5
  constructor
  · unfold get_server_status
    rw [hrb, h6]
  · obtain ⟨a, b, m, hc, _⟩ := onlineContent_ok_shape params.server_ip data c h6
    exact ⟨a, b, m, hc⟩

theorem online_report_no_groq_witness :
    ((get_server_status envON ⟨"mc.example.org"⟩).1).content =
      [⟨"Server mc.example.org is ONLINE."⟩, ⟨"Players: 5/20"⟩,
       ⟨"MOTD: Hello world"⟩] := by
  have h := (online_report_no_groq envON ⟨"mc.example.org"⟩ _ _ _ _ rfl (by decide)
    rfl rfl rfl rfl).1
  rw [h]
  decide

/-- C4 counterexample: with the status result Offline and a Groq response
whose body is not valid JSON, `.json()` raises and the report is the bare
network-error message — not an offline report, and its text explains a
JSON failure rather than naming the provider — so the claim's "for every
failure of the discovery provider ... still returns an offline report
whose suggestion text explains the provider failure" is false here. -/
theorem provider_failure_counterexample :
    statusOffline envGB = true ∧
    ((get_server_status envGB ⟨"play.example.com"⟩).1).content.map TextBlock.text =
      ["Network error checking play.example.com: Invalid JSON in Groq response body"] ∧
    ¬ ((⟨"Server play.example.com is OFFLINE."⟩ : TextBlock) ∈
        ((get_server_status envGB ⟨"play.example.com"⟩).1).content) := by
  refine ⟨rfl, rfl, ?_⟩
  decide

theorem append_len_ne (a b : String) (h : 0 < a.length) : a ++ b ≠ "" := by
  intro he
  have hl := congrArg String.length he
  rw [String.length_append] at hl
  have h0 : ("" : String).length = 0 := rfl
  omega

/-- C4 amended: only a non-success provider HTTP status is absorbed into
an offline report whose second block is a non-empty explanation of the
provider failure; when the provider call raises (unreachable), the report
is instead the network-error message; in every case the operation still
returns a non-empty report rather than a hard error. -/
theorem provider_failure_absorbed (env : Env) (params : ServerStatusInput)
    (r : HttpResponse) (data : Json) (v : Option Json)
    (h1 : env.statusFetch = .resp r) (h2 : r.status_code < 400)
    (h3 : r.jsonBody = some data) (h4 : pyGetOpt data "online" = .ok v)
    (h5 : pyTruthy v = false) :
    (∀ g, env.groqFetch = .resp g → 400 ≤ g.status_code →
      ((get_server_status env params).1).content.map TextBlock.text =
        ["Server " ++ params.server_ip ++ " is OFFLINE.",
         "Unable to fetch alternatives from Groq (status " ++
           toString g.status_code ++ ")."] ∧
      "Unable to fetch alternatives from Groq (status " ++
        toString g.status_code ++ ")." ≠ "") ∧
    (∀ m, env.groqFetch = .exc m →
      ((get_server_status env params).1).content.map TextBlock.text =
        ["Network error checking " ++ params.server_ip ++ ": " ++ m]) ∧
    ((get_server_status env params).1).content ≠ [] := by
  refine ⟨?_, ?_, report_content_ne_nil env params⟩
  · intro g hg hbad
    have hrb := runBody_offline_resp_eq env r g data v params.server_ip h1 h2 h3 h4 h5 hg
    have hh := handleGroqResponse_http_error params.server_ip data g hbad
    constructor
    · unfold get_server_status
      rw [hrb, hh]
      rfl
    · refine append_len_ne _ _ ?_
      rw [String.length_append]
      have hpos : 0 < ("Unable to fetch alternatives from Groq (status ").length := by
        decide
      omega
  · intro m hg
    have hrb := runBody_offline_exc_eq env r data v params.server_ip m h1 h2 h3 h4 h5 hg
    unfold get_server_status
    rw [hrb]
    rfl

theorem provider_failure_absorbed_witness :
    ((get_server_status envGERR ⟨"play.example.com"⟩).1).content.map TextBlock.text =
      ["Server play.example.com is OFFLINE.",
       "Unable to fetch alternatives from Groq (status 500)."] := by
  have h := ((provider_failure_absorbed envGERR ⟨"play.example.com"⟩ _ _ _ rfl
    (by decide) rfl rfl rfl).1 _ rfl (by decide)).1
  exact h

/-- C5 counterexample: with the empty address the tool does not fail fast
and does attempt network I/O — the trace contains the status GET issued
to the base URL with nothing appended — so the claim's "fails fast with
InvalidInput without attempting any network I/O" is false at this input
(no InvalidInput value exists anywhere in the code). -/
theorem empty_address_counterexample :
    (get_server_status envERR ⟨""⟩).2 =
      [ExtRequest.statusGet "https://api.mcsrvstat.us/2/" none] ∧
    (get_server_status envERR ⟨""⟩).2 ≠ [] := by
  refine ⟨rfl, ?_⟩
  decide

/-- C5 amended: the empty address is not validated at all; for every
oracle outcome the invocation with `server_ip = ""` issues the status GET
(to the base URL with the empty address appended) as its first external
request and then proceeds exactly as for any other address. -/
theorem empty_address_not_validated (env : Env) :
    ((get_server_status env ⟨""⟩).2).head? =
      some (ExtRequest.statusGet "https://api.mcsrvstat.us/2/" none) := by
  rw [get_server_status_trace, runBody_trace_eq]
  by_cases ho : statusOffline env = true
  · rw [if_pos ho]
    rfl
  · rw [if_neg ho]
    rfl

/-- C6 counterexample: a status response whose JSON carries `online: true`
but no `players`, `motd` or `version` fields — i.e. the required fields
are absent — does not yield Offline with MalformedResponse: the tool
returns an Online report built from the defaults 0/0 and N/A. -/
theorem malformed_status_counterexample :
    Json.lookupField [("online", Json.bool true)] "players" = none ∧
    Json.lookupField [("online", Json.bool true)] "motd" = none ∧
    statusOnline envDEF = true ∧
    ((get_server_status envDEF ⟨"mc.example.org"⟩).1).content.map TextBlock.text =
      ["Server mc.example.org is ONLINE.", "Players: 0/0", "MOTD: N/A"] := by
  refine ⟨rfl, rfl, rfl, ?_⟩
  decide

/-- C6 amended: the code performs no required-field validation; when the
status JSON parses, `online` is truthy, and `players`/`motd` are absent,
each absent field is silently defaulted (players 0/0, motd N/A) and an
Online report is built from those defaults. (A JSON parse failure raises
JSONDecodeError — a RequestException in requests >= 2.27 — and so yields
the network-error report; no Offline-with-MalformedResponse outcome
exists in the code.) -/
theorem absent_fields_defaulted (env : Env) (params : ServerStatusInput)
    (r : HttpResponse) (fs : List (String × Json)) (v : Json)
    (h1 : env.statusFetch = .resp r) (h2 : r.status_code < 400)
    (h3 : r.jsonBody = some (.obj fs))
    (h4 : Json.lookupField fs "online" = some v) (h5 : v.truthy = true)
    (h6 : Json.lookupField fs "players" = none)
    (h7 : Json.lookupField fs "motd" = none) :
    ((get_server_status env params).1).content.map TextBlock.text =
      ["Server " ++ params.server_ip ++ " is ONLINE.",
       "Players: 0/0", "MOTD: N/A"] := by
  have h4' : pyGetOpt (.obj fs) "online" = .ok (some v) := by
    simp [pyGetOpt, h4]
  have h5' : pyTruthy (some v) = true := h5
  have hrb := runBody_online_eq env r (.obj fs) (some v) params.server_ip h1 h2 h3 h4' h5'
  have hoc : onlineContent params.server_ip (.obj fs) =
      .ok { content := [⟨"Server " ++ params.server_ip ++ " is ONLINE."⟩,
                        ⟨"Players: 0/0"⟩, ⟨"MOTD: N/A"⟩],
            metadata := [("raw", .obj fs)] } := by
    unfold onlineContent
    rw [show pyGetD (Json.obj fs) "players" (Json.obj []) = .ok (Json.obj []) from by
          simp [pyGetD, h6],
        show pyGetD (Json.obj fs) "motd" (Json.obj []) = .ok (Json.obj []) from by
          simp [pyGetD, h7]]
    rfl
  unfold get_server_status
  rw [hrb, hoc]
  rfl

theorem absent_fields_defaulted_witness :
    ((get_server_status envDEF ⟨"mc.test"⟩).1).content.map TextBlock.text =
      ["Server mc.test is ONLINE.", "Players: 0/0", "MOTD: N/A"] := by
  have h := absent_fields_defaulted envDEF ⟨"mc.test"⟩ _
    [("online", Json.bool true)] (Json.bool true) rfl (by decide) rfl rfl rfl rfl rfl
  exact h

/-- C7 counterexample: the status GET appears in a trace and carries no
timeout (`timeout? = none`), so the claim that every external request is
made with an explicit bounded timeout is false at this input. -/
theorem timeout_counterexample :
    ExtRequest.statusGet ("https://api.mcsrvstat.us/2/" ++ "mc.example.org") none ∈
      (get_server_status envON ⟨"mc.example.org"⟩).2 ∧
    (ExtRequest.statusGet ("https://api.mcsrvstat.us/2/" ++ "mc.example.org")
        none).timeout? = none := by
  refine ⟨?_, rfl⟩
  decide

/-- C7 amended: no external request issued by the tool carries a timeout
at all: both the status GET (line 43) and the Groq POST (lines 73-83)
are issued without a timeout argument, so the `requests` default (block
indefinitely) applies; there is no bounded-timeout guarantee. -/
theorem requests_issued_without_timeout (env : Env) (params : ServerStatusInput)
    (r : ExtRequest) (h : r ∈ (get_server_status env params).2) :
    r.timeout? = none := by
  rw [get_server_status_trace, runBody_trace_eq] at h
  by_cases ho : statusOffline env = true
  · rw [if_pos ho] at h
    simp only [List.mem_cons, List.mem_singleton, List.not_mem_nil, or_false] at h
    rcases h with rfl | rfl <;> rfl
  · rw [if_neg ho] at h
    simp only [List.mem_singleton] at h
    subst h
    rfl

theorem requests_issued_without_timeout_witness :
    (statusRequestOf "mc.example.org").timeout? = none := by
  have h := requests_issued_without_timeout envON ⟨"mc.example.org"⟩
    (statusRequestOf "mc.example.org") (by decide)
  exact h

/-- C8 counterexample: the tool's input schema has no port component at
all — two inputs with the same `server_ip` are necessarily the same
input, so there is no optional port parameter to normalize. -/
theorem port_field_counterexample :
    ¬ ∃ a b : ServerStatusInput, a.server_ip = b.server_ip ∧ a ≠ b := by
  rintro ⟨⟨x⟩, ⟨y⟩, h, hne⟩
  cases h
  exact hne rfl

/-- C8 amended: the public operation accepts only the string `server_ip`;
the input carries no port field (an input is fully determined by its
`server_ip`), and no default-port normalization exists. -/
theorem input_determined_by_server_ip (a b : ServerStatusInput)
    (h : a.server_ip = b.server_ip) : a = b := by
  cases a
  cases b
  cases h
  rfl

theorem input_determined_by_server_ip_witness :
    (⟨"play.example.com"⟩ : ServerStatusInput) = ⟨"play.example.com"⟩ :=
  input_determined_by_server_ip ⟨"play.example.com"⟩ ⟨"play.example.com"⟩ rfl

/-- C9: for every non-negative int32 value v, decoding the varint encoding
of v yields v together with the number of bytes consumed. (The Binary
Codec is absent from src; both functions are modelled from spec 4.1.) -/
theorem varint_round_trip (v : Int) (h0 : 0 ≤ v) (h1 : v < 2 ^ 31) :
    ∃ bs, encodeVarInt v = some bs ∧ decodeVarInt bs = some (v, bs.length) := by
  have e31 : (2 : Int) ^ 31 = 2147483648 := by norm_num
  have hn : v.toNat < 2147483648 := by omega
  have hv : v.toNat < 128 ^ (4 + 1) := by
    have : (128 : Nat) ^ (4 + 1) = 34359738368 := by norm_num
    omega
  refine ⟨encodeVarIntNat v.toNat, ?_, ?_⟩
  · unfold encodeVarInt
    rw [if_neg (by omega)]
  · unfold decodeVarInt
    rw [decodeVarIntAux_encode 4 v.toNat hv]
    simp [Int.toNat_of_nonneg h0]

theorem varint_round_trip_witness :
    ∃ bs, encodeVarInt 300 = some bs ∧ decodeVarInt bs = some (300, bs.length) :=
  varint_round_trip 300 (by norm_num) (by norm_num)

/-- C10: the Groq completion endpoint is contacted — carrying the
configured API key in its auth header — exactly on the invocations whose
status check reports the server not online; on the online branch the
request trace is exactly the single status GET and nothing else. -/
theorem groq_contacted_iff_status_not_online (env : Env)
    (params : ServerStatusInput) :
    ((∃ r ∈ (get_server_status env params).2, r.isGroqPost = true) ↔
      statusOffline env = true) ∧
    (statusOffline env = true →
      groqRequestOf env params.server_ip ∈ (get_server_status env params).2) ∧
    (statusOnline env = true →
      (get_server_status env params).2 = [statusRequestOf params.server_ip]) := by
  rw [get_server_status_trace, runBody_trace_eq]
  by_cases ho : statusOffline env = true
  · rw [if_pos ho]
    refine ⟨⟨fun _ => ho, fun _ => ?_⟩, fun _ => ?_, fun hOn => ?_⟩
    · exact ⟨groqRequestOf env params.server_ip, by simp, rfl⟩
    · simp
    · have hcontra := statusOnline_not_offline env hOn
      rw [ho] at hcontra
      exact absurd hcontra (by simp)
  · rw [if_neg ho]
    refine ⟨⟨?_, fun hc => absurd hc ho⟩, fun hc => absurd hc ho, fun _ => rfl⟩
    rintro ⟨r, hr, hg⟩
    simp only [List.mem_singleton] at hr
    subst hr
    exact absurd hg (by simp [statusRequestOf, ExtRequest.isGroqPost])

theorem groq_contacted_iff_status_not_online_witness :
    (get_server_status envON ⟨"mc.example.org"⟩).2 =
      [statusRequestOf "mc.example.org"] :=
  (groq_contacted_iff_status_not_online envON ⟨"mc.example.org"⟩).2.2 rfl
